import Mathlib

/-!
Verification of the global concurrency manager of `replicate_batch_process`
(`src/replicate_batch_process/global_concurrency_manager.py`).

The Python module is shallowly embedded: the process environment store is an
explicit record, the `asyncio.Semaphore` is represented by its internal
counter `_value`, class-level singleton state is an explicit record threaded
through the constructor, and methods become pure state-passing functions.
`Optional` arguments become `Option`, Python exceptions become `Except`, and
the warning print on an unparsable limit value becomes an explicit `Warning`
value.  Line numbers in the comments refer to
`global_concurrency_manager.py`.
-/

deriving instance DecidableEq for Except

namespace ReplicateBatch

/-- The process environment store, restricted to the two variables the module
reads (`os.getenv`, lines 122 and 125) and writes (`os.environ[...]`, lines
94 and 217).  `none` models an absent variable. -/
structure Env where
  replicate_api_token : Option String
  replicate_global_max_concurrent : Option String
  deriving DecidableEq

/-- Python truthiness of an `Optional[str]` value: `None` and `""` are falsy
(used by `if not api_token` on lines 121 and 136, `if env_concurrent` on
line 126, and `if api_token` on line 215). -/
def strTruthy : Option String → Bool
  | none => false
  | some s => s != ""

/-- Surrounding-whitespace stripping on a character list (the `str.strip()`
step CPython's `int` performs before parsing). -/
def stripWs (l : List Char) : List Char :=
  ((l.dropWhile Char.isWhitespace).reverse.dropWhile Char.isWhitespace).reverse

/-- CPython `int(s)` (line 128) on the strings this module can meet: optional
surrounding whitespace, an optional sign, then one or more ASCII decimal
digits.  (CPython additionally accepts underscore digit separators and
non-ASCII digits; no configuration value in this development uses either.)
`none` models the `ValueError` raised on unparsable input (line 129). -/
def pyInt? (s : String) : Option Int :=
  match stripWs s.toList with
  | [] => none
  | c :: rest =>
      let neg : Bool := c == '-'
      let ds : List Char := if c = '-' ∨ c = '+' then rest else c :: rest
      if ds ≠ [] ∧ ds.all Char.isDigit then
        let n : Int := Int.ofNat (ds.foldl (fun a d => a * 10 + (d.toNat - 48)) 0)
        some (if neg then -n else n)
      else none

/-- Lines 22-30: the `ReplicateCredentials` dataclass.  `__post_init__`
raises on an empty `api_token`; every value this development constructs goes
through `get_credentials`, which establishes that guard (line 136) before
building the dataclass (lines 145-148). -/
structure ReplicateCredentials where
  api_token : String
  global_max_concurrent : Int
  deriving DecidableEq

/-- The warning print on line 130 (`Invalid REPLICATE_GLOBAL_MAX_CONCURRENT
value: ..., using default`). -/
inductive Warning
  | invalidLimitValue (raw : String)
  deriving DecidableEq

/-- The `ValueError` raised by `_get_credentials` on lines 137-139 when no
API token is available from any source. -/
inductive ResolveError
  | missingToken
  deriving DecidableEq

/-- Lines 116-122: resolve the API token, priority payload over environment.
A falsy payload token (`None` or `""`) falls through to the environment
variable `REPLICATE_API_TOKEN`. -/
def resolve_api_token (payload_api_token : Option String) (env : Env) :
    Option String :=
  if strTruthy payload_api_token then payload_api_token
  else env.replicate_api_token

/-- Lines 118 and 124-133: resolve the concurrency limit.  A payload value
that is not `None` is taken as-is (the check on line 124 is `is None`, so a
payload `0` is kept).  Otherwise a truthy environment string is parsed with
`int(...)`; an unparsable string warns and falls back to 60 (lines 129-131);
an absent or empty environment string yields 60 (lines 132-133). -/
def resolve_max_concurrent (payload_max_concurrent : Option Int) (env : Env) :
    List Warning × Int :=
  match payload_max_concurrent with
  | some m => ([], m)
  | none =>
      let env_concurrent := env.replicate_global_max_concurrent
      if strTruthy env_concurrent then
        match pyInt? (env_concurrent.getD "") with
        | some n => ([], n)
        | none => ([Warning.invalidLimitValue (env_concurrent.getD "")], 60)
      else ([], 60)

/-- Lines 102-148: `_get_credentials`.  Resolves token and limit, then
raises `ValueError` (modelled as `ResolveError.missingToken`) when the
resolved token is falsy (lines 136-139); warnings accumulated during limit
resolution are emitted either way (the warning print on line 130 precedes
the token check). -/
def get_credentials (payload_api_token : Option String)
    (payload_max_concurrent : Option Int) (env : Env) :
    List Warning × Except ResolveError ReplicateCredentials :=
  let api_token := resolve_api_token payload_api_token env
  let wm := resolve_max_concurrent payload_max_concurrent env
  if strTruthy api_token then
    (wm.1, .ok ⟨api_token.getD "", wm.2⟩)
  else
    (wm.1, .error .missingToken)

/-- Lines 79-84: the `self._stats` dictionary. -/
structure Stats where
  total_requests : Nat
  concurrent_requests : Nat
  max_concurrent_reached : Nat
  created_at : Int
  deriving DecidableEq

/-- The state of an initialized manager as seen by the quota/status/update
methods: the resolved credentials (`self._credentials`), the semaphore's
internal counter (`self._global_semaphore._value`), and the statistics
dictionary (`self._stats`). -/
structure ManagerState where
  credentials : ReplicateCredentials
  semValue : Nat
  stats : Stats
  deriving DecidableEq

/-- `asyncio.Semaphore.locked()` (line 169): true when the internal counter
is zero, i.e. no slot is immediately available. -/
def semLocked (s : ManagerState) : Bool := s.semValue == 0

/-- The gate's capacity: the resolved `global_max_concurrent` (used as the
capacity on lines 195-198). -/
def gateCapacity (s : ManagerState) : Int := s.credentials.global_max_concurrent

/-- The gate's in-use count, as the status method computes it on line 196:
`global_max_concurrent - semaphore._value`. -/
def gateInUse (s : ManagerState) : Int := gateCapacity s - (s.semValue : Int)

/-- Lines 161-179: `acquire_global_quota`.  It peeks at `semaphore.locked()`
(line 169) and, when the semaphore is not locked, increments
`total_requests` and `concurrent_requests` and refreshes
`max_concurrent_reached` (lines 171-177); it returns `not locked`
(line 179).  It never awaits or acquires the semaphore itself. -/
def acquire_global_quota (s : ManagerState) : ManagerState × Bool :=
  let acquired := semLocked s
  if !acquired then
    ({ s with stats :=
        { s.stats with
          total_requests := s.stats.total_requests + 1,
          concurrent_requests := s.stats.concurrent_requests + 1,
          max_concurrent_reached :=
            max s.stats.max_concurrent_reached (s.stats.concurrent_requests + 1) } },
     !acquired)
  else
    (s, !acquired)

/-- Lines 181-183: `release_global_quota` sets `concurrent_requests` to
`max(0, concurrent_requests - 1)`; truncated `Nat` subtraction models the
clamp at zero.  The semaphore is untouched. -/
def release_global_quota (s : ManagerState) : ManagerState :=
  { s with stats := { s.stats with
      concurrent_requests := s.stats.concurrent_requests - 1 } }

/-- A call to one of the two quota methods. -/
inductive QuotaOp
  | acquire
  | release
  deriving DecidableEq

/-- Run a sequence of quota calls against a manager state. -/
def runOps : ManagerState → List QuotaOp → ManagerState
  | s, [] => s
  | s, QuotaOp.acquire :: rest => runOps (acquire_global_quota s).1 rest
  | s, QuotaOp.release :: rest => runOps (release_global_quota s) rest

/-- The dictionary returned by `get_global_status` (lines 194-202). -/
structure GlobalStatus where
  global_max_concurrent : Int
  current_concurrent : Int
  available_slots : Int
  utilization_percentage : Rat
  total_requests : Nat
  max_concurrent_reached : Nat
  uptime_seconds : Int
  deriving DecidableEq

/-- Lines 185-202: `get_global_status`.  The method only reads state, so the
embedding returns the (unchanged) manager state alongside the snapshot.
`none` models the `ZeroDivisionError` Python raises on line 198 when
`global_max_concurrent` is zero. -/
def get_global_status (s : ManagerState) (now : Int) :
    Option (GlobalStatus × ManagerState) :=
  if s.credentials.global_max_concurrent = 0 then
    none
  else
    some (⟨s.credentials.global_max_concurrent,
           s.credentials.global_max_concurrent - (s.semValue : Int),
           (s.semValue : Int),
           (((s.credentials.global_max_concurrent - (s.semValue : Int) : Int) : Rat) /
             ((s.credentials.global_max_concurrent : Int) : Rat)) * 100,
           s.stats.total_requests,
           s.stats.max_concurrent_reached,
           now - s.stats.created_at⟩, s)

/-- Lines 204-228: `update_credentials`.  `if api_token:` (line 215) uses
string truthiness; `if global_max_concurrent:` (line 220) uses integer
truthiness, so `None` and `0` both skip the second branch.  A negative new
limit makes `asyncio.Semaphore(...)` (line 225) raise `ValueError` after the
limit field was already assigned (line 222); the error case carries that
partially-updated state. -/
def update_credentials (s : ManagerState) (env : Env) (api_token : Option String)
    (global_max_concurrent : Option Int) :
    ManagerState × Env × Except String Unit :=
  let s1 :=
    if strTruthy api_token then
      { s with credentials := { s.credentials with api_token := api_token.getD "" } }
    else s
  let env1 :=
    if strTruthy api_token then { env with replicate_api_token := api_token }
    else env
  let gmcTruthy : Bool :=
    match global_max_concurrent with
    | some n => n != 0
    | none => false
  if gmcTruthy then
    let n := global_max_concurrent.getD 0
    let s2 := { s1 with credentials := { s1.credentials with global_max_concurrent := n } }
    if n < 0 then
      (s2, env1, .error "ValueError")
    else
      ({ s2 with semValue := n.toNat }, env1, .ok ())
  else
    (s1, env1, .ok ())

/-- Errors a constructor call can raise: the `ValueError` from
`_get_credentials` (lines 137-139) and the `ValueError` from
`asyncio.Semaphore(n)` with `n < 0` (line 91). -/
inductive InitError
  | missingToken
  | negativeSemaphoreValue
  deriving DecidableEq

/-- A Python instance of `GlobalReplicateConcurrencyManager`: its object
identity, whether `self._initialized` has been set (line 96), and
`self._stats` (set on lines 79-84 during `__init__`). -/
structure PyInstance where
  id : Nat
  initialized : Bool
  stats : Option Stats
  deriving DecidableEq

/-- The class-level singleton state (lines 56-59): `cls._instance`,
`cls._global_semaphore` (represented by its counter), and
`cls._credentials`.  `nextId` is an allocation counter giving fresh object
identities so that reference identity is expressible. -/
structure ClassState where
  nextId : Nat
  inst? : Option PyInstance
  global_semaphore : Option Nat
  credentials : Option ReplicateCredentials
  deriving DecidableEq

/-- The class state before any constructor call: all three class attributes
are `None` (lines 56-58). -/
def initialClassState : ClassState := ⟨0, none, none, none⟩

/-- Lines 75-100: the body of `__init__` for an instance that does not yet
have `_initialized`.  `self._stats` is assigned first (lines 79-84), then
credentials are resolved (line 87, may raise), the class semaphore is
created if absent (lines 90-91, raises on a negative limit), the token is
written to the environment (line 94), and `_initialized` is set (line 96). -/
def construct_init (st : ClassState) (env : Env) (inst : PyInstance)
    (api_token : Option String) (global_max_concurrent : Option Int) (now : Int) :
    ClassState × Env × List Warning × Except InitError PyInstance :=
  let inst2 : PyInstance := { inst with stats := some ⟨0, 0, 0, now⟩ }
  let st2 : ClassState := { st with inst? := some inst2 }
  match (get_credentials api_token global_max_concurrent env).2 with
  | .error _ =>
      (st2, env, (get_credentials api_token global_max_concurrent env).1,
       .error .missingToken)
  | .ok creds =>
      let st3 : ClassState := { st2 with credentials := some creds }
      match st3.global_semaphore with
      | some _ =>
          ({ st3 with inst? := some { inst2 with initialized := true } },
           { env with replicate_api_token := some creds.api_token },
           (get_credentials api_token global_max_concurrent env).1,
           .ok { inst2 with initialized := true })
      | none =>
          if creds.global_max_concurrent < 0 then
            (st3, env,
             (get_credentials api_token global_max_concurrent env).1,
             .error .negativeSemaphoreValue)
          else
            ({ st3 with
                global_semaphore := some creds.global_max_concurrent.toNat,
                inst? := some { inst2 with initialized := true } },
             { env with replicate_api_token := some creds.api_token },
             (get_credentials api_token global_max_concurrent env).1,
             .ok { inst2 with initialized := true })

/-- Lines 61-100: one constructor call
`GlobalReplicateConcurrencyManager(api_token, global_max_concurrent)`.
`__new__` (lines 61-65) reuses `cls._instance` when present, otherwise
allocates a fresh object; `__init__` returns immediately when
`_initialized` is already set (lines 76-77), ignoring its arguments.
`create_global_manager` (lines 232-243) forwards to this constructor
unchanged. -/
def construct (st : ClassState) (env : Env) (api_token : Option String)
    (global_max_concurrent : Option Int) (now : Int) :
    ClassState × Env × List Warning × Except InitError PyInstance :=
  match st.inst? with
  | some i =>
      if i.initialized then (st, env, [], .ok i)
      else construct_init st env i api_token global_max_concurrent now
  | none =>
      let i : PyInstance := ⟨st.nextId, false, none⟩
      construct_init { st with nextId := st.nextId + 1, inst? := some i } env i
        api_token global_max_concurrent now

/-- Run a sequence of constructor calls (each with its own arguments and
clock reading), collecting every call's result. -/
def constructSeq : ClassState → Env → List (Option String × Option Int × Int) →
    ClassState × Env × List (Except InitError PyInstance)
  | st, env, [] => (st, env, [])
  | st, env, c :: rest =>
      let r := construct st env c.1 c.2.1 c.2.2
      let tail := constructSeq r.1 r.2.1 rest
      (tail.1, tail.2.1, r.2.2.2 :: tail.2.2)

/-- Project an initialized class state onto the manager state used by the
quota/status methods. -/
def managerStateOf (st : ClassState) : Option ManagerState :=
  match st.credentials, st.global_semaphore, st.inst? with
  | some c, some v, some i =>
      match i.stats with
      | some stats => some ⟨c, v, stats⟩
      | none => none
  | _, _, _ => none

/-! ### Helper lemmas about the quota methods -/

theorem acquire_fst_semValue (s : ManagerState) :
    (acquire_global_quota s).1.semValue = s.semValue := by
  simp only [acquire_global_quota]
  split <;> rfl

theorem acquire_fst_credentials (s : ManagerState) :
    (acquire_global_quota s).1.credentials = s.credentials := by
  simp only [acquire_global_quota]
  split <;> rfl

theorem acquire_snd (s : ManagerState) :
    (acquire_global_quota s).2 = !semLocked s := by
  simp only [acquire_global_quota]
  split <;> rfl

theorem acquire_total_mono (s : ManagerState) :
    s.stats.total_requests ≤ (acquire_global_quota s).1.stats.total_requests := by
  simp only [acquire_global_quota]
  split
  · exact Nat.le_succ _
  · exact Nat.le_refl _

theorem acquire_max_mono (s : ManagerState) :
    s.stats.max_concurrent_reached ≤
      (acquire_global_quota s).1.stats.max_concurrent_reached := by
  simp only [acquire_global_quota]
  split
  · exact Nat.le_max_left _ _
  · exact Nat.le_refl _

theorem runOps_semValue (s : ManagerState) (ops : List QuotaOp) :
    (runOps s ops).semValue = s.semValue := by
  induction ops generalizing s with
  | nil => rfl
  | cons op rest ih =>
      cases op with
      | acquire =>
          rw [runOps, ih, acquire_fst_semValue]
      | release =>
          rw [runOps, ih]
          rfl

theorem runOps_credentials (s : ManagerState) (ops : List QuotaOp) :
    (runOps s ops).credentials = s.credentials := by
  induction ops generalizing s with
  | nil => rfl
  | cons op rest ih =>
      cases op with
      | acquire =>
          rw [runOps, ih, acquire_fst_credentials]
      | release =>
          rw [runOps, ih]
          rfl

theorem runOps_gateInUse (s : ManagerState) (ops : List QuotaOp) :
    gateInUse (runOps s ops) = gateInUse s := by
  unfold gateInUse gateCapacity
  rw [runOps_semValue, runOps_credentials]

/-- The concrete post-initialization state for a payload limit of 3 (what
`managerStateOf` yields right after a successful first constructor call with
`api_token="r8_token"`, `global_max_concurrent=3`, at time 0). -/
def c1Gate : ManagerState := ⟨⟨"r8_token", 3⟩, 3, ⟨0, 0, 0, 0⟩⟩

/-- C1 counterexample: the claim says `acquire_global_quota` suspends until
a slot is available (`inUse < capacity`) and then increments the gate's
`inUse`.  At the reachable state `c1Gate` (capacity 3, fresh semaphore) a
slot is available, yet the call leaves the semaphore counter — and hence the
gate's `inUse` — unchanged: the method only peeks at `semaphore.locked()`
and never acquires the semaphore. -/
theorem c1_counterexample :
    managerStateOf (construct initialClassState ⟨none, none⟩
        (some "r8_token") (some 3) 0).1 = some c1Gate ∧
    gateInUse c1Gate < gateCapacity c1Gate ∧
    gateInUse (acquire_global_quota c1Gate).1 ≠ gateInUse c1Gate + 1 ∧
    (acquire_global_quota c1Gate).1.semValue = c1Gate.semValue := by
  decide

/-- C1 (amended): `acquire_global_quota` is a non-blocking check — it
returns `True` iff a slot is free (`inUse < capacity`), bumping only the
statistics counters, and it never modifies the gate's `inUse`; hence along
every sequence of `acquire_global_quota`/`release_global_quota` calls the
gate's `inUse` is unchanged and `0 ≤ inUse ≤ capacity` holds at every point
whenever it holds initially. -/
theorem c1_amended_quota_gate_frame (s : ManagerState) (ops : List QuotaOp)
    (h0 : 0 ≤ gateInUse s) (h1 : gateInUse s ≤ gateCapacity s) :
    ((acquire_global_quota s).2 = true ↔ gateInUse s < gateCapacity s) ∧
    (runOps s ops).semValue = s.semValue ∧
    gateInUse (runOps s ops) = gateInUse s ∧
    0 ≤ gateInUse (runOps s ops) ∧
    gateInUse (runOps s ops) ≤ gateCapacity (runOps s ops) := by
  have hcap : gateCapacity (runOps s ops) = gateCapacity s := by
    unfold gateCapacity
    rw [runOps_credentials]
  refine ⟨?_, runOps_semValue s ops, runOps_gateInUse s ops, ?_, ?_⟩
  · rw [acquire_snd]
    unfold semLocked gateInUse gateCapacity
    rcases hv : s.semValue with _ | v
    · simp [hv]
    · simp [hv]
  · rw [runOps_gateInUse]
    exact h0
  · rw [runOps_gateInUse, hcap]
    exact h1

/-- Witness for the C1 amended theorem at the concrete state `c1Gate` with
one acquire followed by one release. -/
theorem c1_amended_quota_gate_frame_witness :
    ((acquire_global_quota c1Gate).2 = true ↔ gateInUse c1Gate < gateCapacity c1Gate) ∧
    (runOps c1Gate [QuotaOp.acquire, QuotaOp.release]).semValue = c1Gate.semValue ∧
    gateInUse (runOps c1Gate [QuotaOp.acquire, QuotaOp.release]) = gateInUse c1Gate ∧
    0 ≤ gateInUse (runOps c1Gate [QuotaOp.acquire, QuotaOp.release]) ∧
    gateInUse (runOps c1Gate [QuotaOp.acquire, QuotaOp.release]) ≤
      gateCapacity (runOps c1Gate [QuotaOp.acquire, QuotaOp.release]) :=
  c1_amended_quota_gate_frame c1Gate [QuotaOp.acquire, QuotaOp.release]
    (by decide) (by decide)

/-- The concrete post-initialization state for a payload limit of 1. -/
def c5Gate : ManagerState := ⟨⟨"r8_token", 1⟩, 1, ⟨0, 0, 0, 0⟩⟩

/-- C5 counterexample: the claim says `max_concurrent_reached` never exceeds
the gate's capacity.  From the reachable post-initialization state with
capacity 1, two `acquire_global_quota` calls push `max_concurrent_reached`
to 2 — the method never takes a semaphore slot, so `semaphore.locked()`
stays false and `concurrent_requests` keeps growing past the capacity. -/
theorem c5_counterexample :
    managerStateOf (construct initialClassState ⟨none, none⟩
        (some "r8_token") (some 1) 0).1 = some c5Gate ∧
    gateCapacity c5Gate = 1 ∧
    (runOps c5Gate [QuotaOp.acquire, QuotaOp.acquire]).stats.max_concurrent_reached = 2 ∧
    ¬ (((runOps c5Gate [QuotaOp.acquire, QuotaOp.acquire]).stats.max_concurrent_reached : Int)
        ≤ gateCapacity c5Gate) := by
  decide

/-- C5 (amended): across every sequence of `acquire_global_quota` and
`release_global_quota` calls, `total_requests` and `max_concurrent_reached`
never decrease.  (The bound `max_concurrent_reached ≤ capacity` claimed by
the spec does not hold, because `acquire_global_quota` never takes a
semaphore slot.) -/
theorem c5_amended_stats_monotone (s : ManagerState) (ops : List QuotaOp) :
    s.stats.total_requests ≤ (runOps s ops).stats.total_requests ∧
    s.stats.max_concurrent_reached ≤ (runOps s ops).stats.max_concurrent_reached := by
  induction ops generalizing s with
  | nil => exact ⟨Nat.le_refl _, Nat.le_refl _⟩
  | cons op rest ih =>
      cases op with
      | acquire =>
          rw [runOps]
          exact ⟨Nat.le_trans (acquire_total_mono s) (ih _).1,
                 Nat.le_trans (acquire_max_mono s) (ih _).2⟩
      | release =>
          rw [runOps]
          exact ⟨(ih (release_global_quota s)).1, (ih (release_global_quota s)).2⟩

/-! ### Helper lemmas about credential resolution -/

theorem strTruthy_false_iff (o : Option String) :
    strTruthy o = false ↔ (o = none ∨ o = some "") := by
  cases o with
  | none => simp [strTruthy]
  | some s =>
      simp only [strTruthy, bne_eq_false_iff_eq, Option.some.injEq]
      constructor
      · intro h
        exact Or.inr h
      · rintro (h | h)
        · exact absurd h (by simp)
        · exact h

theorem resolve_api_token_falsy (pt : Option String) (env : Env) :
    strTruthy (resolve_api_token pt env) = false ↔
      ((pt = none ∨ pt = some "") ∧
       (env.replicate_api_token = none ∨ env.replicate_api_token = some "")) := by
  unfold resolve_api_token
  cases ht : strTruthy pt with
  | false =>
      simp only [Bool.false_eq_true, if_false, strTruthy_false_iff]
      rw [strTruthy_false_iff] at ht
      simp [ht]
  | true =>
      simp only [if_true, ht]
      constructor
      · intro h
        exact absurd h (by simp [ht])
      · rintro ⟨h1, _⟩
        rw [← strTruthy_false_iff] at h1
        rw [ht] at h1
        exact absurd h1 (by simp)

theorem get_credentials_error_iff (pt : Option String) (pl : Option Int) (env : Env) :
    (get_credentials pt pl env).2 = .error .missingToken ↔
      strTruthy (resolve_api_token pt env) = false := by
  simp only [get_credentials]
  cases h : strTruthy (resolve_api_token pt env) with
  | false => simp [h]
  | true => simp [h]

theorem get_credentials_ok_of_truthy (pt : Option String) (pl : Option Int) (env : Env)
    (t : String) (h1 : resolve_api_token pt env = some t) (h2 : t ≠ "") :
    (get_credentials pt pl env).2 = .ok ⟨t, (resolve_max_concurrent pl env).2⟩ := by
  simp only [get_credentials, h1]
  have : strTruthy (some t) = true := by simp [strTruthy, h2]
  simp [this]

/-- C3: credential priority.  A non-empty payload token wins over any
environment token; with no (or an empty) payload token a non-empty
environment token is used.  Independently, a supplied payload limit wins; a
missing payload limit uses a parseable environment value; and with neither
(or an empty environment string) the default 60 applies. -/
theorem c3_credential_priority (t e sLim : String) (pt : Option String)
    (pl : Option Int) (env : Env) (n : Int) :
    (t ≠ "" → (get_credentials (some t) pl env).2 =
        .ok ⟨t, (resolve_max_concurrent pl env).2⟩) ∧
    ((pt = none ∨ pt = some "") → env.replicate_api_token = some e → e ≠ "" →
        (get_credentials pt pl env).2 = .ok ⟨e, (resolve_max_concurrent pl env).2⟩) ∧
    ((resolve_max_concurrent (some n) env).2 = n) ∧
    (env.replicate_global_max_concurrent = some sLim → pyInt? sLim = some n →
        (resolve_max_concurrent none env).2 = n) ∧
    ((env.replicate_global_max_concurrent = none ∨
        env.replicate_global_max_concurrent = some "") →
        (resolve_max_concurrent none env).2 = 60) := by
  refine ⟨?_, ?_, rfl, ?_, ?_⟩
  · intro ht
    refine get_credentials_ok_of_truthy (some t) pl env t ?_ ht
    unfold resolve_api_token
    simp [strTruthy, ht]
  · intro hpt he hne
    refine get_credentials_ok_of_truthy pt pl env e ?_ hne
    unfold resolve_api_token
    rw [← strTruthy_false_iff] at hpt
    simp [hpt, he]
  · intro hs hp
    have hne : sLim ≠ "" := by
      intro h
      rw [h, show pyInt? "" = none from rfl] at hp
      exact Option.noConfusion hp
    simp only [resolve_max_concurrent, hs]
    have : strTruthy (some sLim) = true := by simp [strTruthy, hne]
    simp [this, hp]
  · intro h
    rw [← strTruthy_false_iff] at h
    simp [resolve_max_concurrent, h]

/-- Witness for C3 at payload token `"A"`, environment token `"B"`,
environment limit string `"5"`. -/
theorem c3_credential_priority_witness :
    (get_credentials (some "A") none ⟨some "B", some "5"⟩).2 = .ok ⟨"A", 5⟩ ∧
    (get_credentials none none ⟨some "B", some "5"⟩).2 = .ok ⟨"B", 5⟩ ∧
    (resolve_max_concurrent (some 7) ⟨some "B", some "5"⟩).2 = 7 ∧
    (resolve_max_concurrent none ⟨some "B", some "5"⟩).2 = 5 ∧
    (resolve_max_concurrent none ⟨some "B", none⟩).2 = 60 := by
  have h1 := c3_credential_priority "A" "B" "5" none none ⟨some "B", some "5"⟩ 5
  have h2 := c3_credential_priority "A" "B" "5" none none ⟨some "B", some "5"⟩ 7
  have h3 := c3_credential_priority "A" "B" "5" none none ⟨some "B", none⟩ 5
  have e5 : (resolve_max_concurrent none ⟨some "B", some "5"⟩).2 = 5 := by decide
  refine ⟨?_, ?_, h2.2.2.1, h1.2.2.2.1 rfl (by decide), h3.2.2.2.2 (Or.inl rfl)⟩
  · have := h1.1 (by decide)
    rw [e5] at this
    exact this
  · have := h1.2.1 (Or.inl rfl) rfl (by decide)
    rw [e5] at this
    exact this

/-- C4: resolution fails — with the missing-token error, the only error it
can raise — if and only if no token is available from the payload or the
environment (each absent or empty); on failure no credentials value is
produced (the `Except` is an error) and the error propagates to the
constructor, resolution's immediate caller. -/
theorem c4_missing_token_iff (pt : Option String) (pl : Option Int) (env : Env)
    (st : ClassState) (t : Int) :
    ((get_credentials pt pl env).2 = .error .missingToken ↔
      ((pt = none ∨ pt = some "") ∧
       (env.replicate_api_token = none ∨ env.replicate_api_token = some ""))) ∧
    (∀ e, (get_credentials pt pl env).2 = .error e → e = .missingToken) ∧
    ((get_credentials pt pl env).2 = .error .missingToken →
      (∀ i0, st.inst? = some i0 → i0.initialized = false) →
      (construct st env pt pl t).2.2.2 = .error .missingToken) := by
  refine ⟨(get_credentials_error_iff pt pl env).trans (resolve_api_token_falsy pt env),
          ?_, ?_⟩
  · intro e he
    cases e
    rfl
  · intro herr huninit
    have hinitbody : ∀ st2 inst, (construct_init st2 env inst pt pl t).2.2.2 =
        .error InitError.missingToken := by
      intro st2 inst
      simp only [construct_init]
      rw [herr]
    unfold construct
    cases hi : st.inst? with
    | some i0 =>
        have hinit := huninit i0 hi
        simp only [hinit, Bool.false_eq_true, if_false]
        exact hinitbody st i0
    | none =>
        exact hinitbody _ _

/-- Witness for C4 with no token anywhere: resolution errors and the
constructor surfaces the error. -/
theorem c4_missing_token_iff_witness :
    (get_credentials none none ⟨none, none⟩).2 = .error .missingToken ∧
    (construct initialClassState ⟨none, none⟩ none none 0).2.2.2 =
      .error InitError.missingToken := by
  have h := c4_missing_token_iff none none ⟨none, none⟩ initialClassState 0
  have h1 := h.1.mpr ⟨Or.inl rfl, Or.inl rfl⟩
  refine ⟨h1, h.2.2 h1 ?_⟩
  intro i0 h0
  exact Option.noConfusion h0

/-- C6 counterexample: the claim says every successfully resolved
credentials value has a concurrency limit of at least 1, even for zero or
negative payload limits.  A payload limit of 0 is accepted as-is (the guard
on line 124 is `is None`, not truthiness), so resolution succeeds with
limit 0. -/
theorem c6_counterexample :
    (get_credentials (some "r8_token") (some 0) ⟨none, none⟩).2 =
      .ok ⟨"r8_token", 0⟩ ∧
    ¬ ((1 : Int) ≤ (0 : Int)) := by
  decide

/-- C6 (amended): every credentials value produced by a successful
resolution has a non-empty token; the concurrency limit, however, is not
constrained to be at least 1 — zero or negative payload limits and zero or
negative environment strings are accepted as resolved. -/
theorem c6_amended_token_nonempty (pt : Option String) (pl : Option Int) (env : Env)
    (c : ReplicateCredentials) (w : List Warning)
    (h : get_credentials pt pl env = (w, .ok c)) : c.api_token ≠ "" := by
  have h2 : (get_credentials pt pl env).2 = .ok c := by rw [h]
  simp only [get_credentials] at h2
  cases hr : resolve_api_token pt env with
  | none =>
      rw [hr] at h2
      simp [strTruthy] at h2
  | some s =>
      rw [hr] at h2
      by_cases hs : s = ""
      · rw [hs] at h2
        simp [strTruthy] at h2
      · have : strTruthy (some s) = true := by simp [strTruthy, hs]
        rw [this] at h2
        simp only [if_true, Except.ok.injEq] at h2
        rw [← h2]
        exact hs

/-- Witness for the C6 amended theorem at payload token `"A"`. -/
theorem c6_amended_token_nonempty_witness :
    (ReplicateCredentials.mk "A" 60).api_token ≠ "" :=
  c6_amended_token_nonempty (some "A") none ⟨none, none⟩ ⟨"A", 60⟩ [] rfl

/-- C7 counterexample: the claim says every present environment limit
string that does not parse as a positive integer yields a warning and the
default 60.  The string `"-5"` is not a positive integer, yet `int("-5")`
succeeds, so the code accepts the resolved limit -5 with no warning and no
fallback. -/
theorem c7_counterexample :
    resolve_max_concurrent none ⟨some "r8_token", some "-5"⟩ = ([], -5) ∧
    (get_credentials none none ⟨some "r8_token", some "-5"⟩).2 =
      .ok ⟨"r8_token", -5⟩ ∧
    ((-5 : Int) ≠ 60) := by
  decide

/-- C7 (amended): an environment limit string that is present, non-empty,
and fails to parse as an integer at all (e.g. `"not-a-number"`) yields a
warning and the default 60, and resolution still succeeds for any non-empty
token; strings that parse as any integer — including `"-5"` and `"0"` — are
accepted as that integer without warning or fallback. -/
theorem c7_amended_unparsable_limit_default (s t : String) (env : Env)
    (hs : env.replicate_global_max_concurrent = some s) (hne : s ≠ "")
    (hp : pyInt? s = none) (ht : t ≠ "") :
    resolve_max_concurrent none env = ([Warning.invalidLimitValue s], 60) ∧
    (get_credentials (some t) none env).2 = .ok ⟨t, 60⟩ := by
  have hmc : resolve_max_concurrent none env = ([Warning.invalidLimitValue s], 60) := by
    simp only [resolve_max_concurrent, hs]
    have : strTruthy (some s) = true := by simp [strTruthy, hne]
    simp [this, hp]
  refine ⟨hmc, ?_⟩
  have := get_credentials_ok_of_truthy (some t) none env t
    (by unfold resolve_api_token; simp [strTruthy, ht]) ht
  rw [hmc] at this
  exact this

/-- Witness for the C7 amended theorem at the spec's own example string
`"not-a-number"`. -/
theorem c7_amended_unparsable_limit_default_witness :
    resolve_max_concurrent none ⟨some "r8_tok", some "not-a-number"⟩ =
      ([Warning.invalidLimitValue "not-a-number"], 60) ∧
    (get_credentials (some "r8_tok") none ⟨some "r8_tok", some "not-a-number"⟩).2 =
      .ok ⟨"r8_tok", 60⟩ :=
  c7_amended_unparsable_limit_default "not-a-number" "r8_tok"
    ⟨some "r8_tok", some "not-a-number"⟩ rfl (by decide) (by decide) (by decide)

/-- C8 counterexample: the claim quantifies over every reachable manager
state, but a manager initialized with a payload limit of 0 is reachable
(`asyncio.Semaphore(0)` is legal), and on that state `get_global_status`
raises `ZeroDivisionError` (line 198) instead of returning a snapshot. -/
theorem c8_counterexample :
    managerStateOf (construct initialClassState ⟨none, none⟩
        (some "r8_token") (some 0) 0).1 =
      some ⟨⟨"r8_token", 0⟩, 0, ⟨0, 0, 0, 0⟩⟩ ∧
    get_global_status ⟨⟨"r8_token", 0⟩, 0, ⟨0, 0, 0, 0⟩⟩ 5 = none := by
  decide

/-- C8 (amended): for every manager state with a nonzero capacity,
`get_global_status` returns a snapshot with
`available_slots = capacity - inUse`,
`utilization_percentage = 100 * inUse / capacity`, the stored
`total_requests` and `max_concurrent_reached`, and
`uptime_seconds = now - created_at`, and it performs no state mutation;
with capacity 0 the Python code instead raises `ZeroDivisionError`. -/
theorem c8_amended_status_arithmetic (s : ManagerState) (now : Int)
    (h : gateCapacity s ≠ 0) :
    get_global_status s now =
      some (⟨gateCapacity s,
             gateInUse s,
             gateCapacity s - gateInUse s,
             100 * (gateInUse s : Rat) / (gateCapacity s : Rat),
             s.stats.total_requests,
             s.stats.max_concurrent_reached,
             now - s.stats.created_at⟩, s) := by
  have h' : ¬ s.credentials.global_max_concurrent = 0 := h
  simp only [get_global_status, if_neg h', Option.some.injEq, Prod.mk.injEq,
    GlobalStatus.mk.injEq, gateCapacity, gateInUse]
  exact ⟨⟨trivial, trivial, by ring, by ring, trivial, trivial, trivial⟩, trivial⟩

/-- Witness for the C8 amended theorem at the spec's own example: capacity
10 with 4 slots in use gives `available_slots = 6` and utilization 40. -/
theorem c8_amended_status_arithmetic_witness :
    get_global_status ⟨⟨"r8_token", 10⟩, 6, ⟨7, 4, 5, 2⟩⟩ 12 =
      some (⟨10, 4, 6, 40, 7, 5, 10⟩, ⟨⟨"r8_token", 10⟩, 6, ⟨7, 4, 5, 2⟩⟩) := by
  have h := c8_amended_status_arithmetic ⟨⟨"r8_token", 10⟩, 6, ⟨7, 4, 5, 2⟩⟩ 12
    (by decide)
  rw [h]
  norm_num [gateCapacity, gateInUse]

/-- C10: `update_credentials` mutates only the state selected by truthy
arguments.  With both arguments `None`, or with a limit of 0 (falsy),
nothing changes — credentials, semaphore counter, statistics and
environment are all left intact.  With only a non-empty token, exactly the
stored `api_token` and the environment's `REPLICATE_API_TOKEN` change,
while the semaphore counter, the stored limit and the statistics are
untouched. -/
theorem c10_update_credentials_frame (s : ManagerState) (env : Env) (t : String)
    (ht : t ≠ "") :
    update_credentials s env none none = (s, env, .ok ()) ∧
    update_credentials s env none (some 0) = (s, env, .ok ()) ∧
    update_credentials s env (some t) none =
      ({ s with credentials := { s.credentials with api_token := t } },
       { env with replicate_api_token := some t }, .ok ()) := by
  refine ⟨rfl, rfl, ?_⟩
  have htr : strTruthy (some t) = true := by simp [strTruthy, ht]
  simp [update_credentials, htr]

/-- Witness for C10 at a concrete manager state, environment and token. -/
theorem c10_update_credentials_frame_witness :
    update_credentials ⟨⟨"r8_old", 4⟩, 4, ⟨3, 1, 2, 0⟩⟩ ⟨some "r8_old", some "4"⟩
        none none =
      (⟨⟨"r8_old", 4⟩, 4, ⟨3, 1, 2, 0⟩⟩, ⟨some "r8_old", some "4"⟩, .ok ()) ∧
    update_credentials ⟨⟨"r8_old", 4⟩, 4, ⟨3, 1, 2, 0⟩⟩ ⟨some "r8_old", some "4"⟩
        none (some 0) =
      (⟨⟨"r8_old", 4⟩, 4, ⟨3, 1, 2, 0⟩⟩, ⟨some "r8_old", some "4"⟩, .ok ()) ∧
    update_credentials ⟨⟨"r8_old", 4⟩, 4, ⟨3, 1, 2, 0⟩⟩ ⟨some "r8_old", some "4"⟩
        (some "r8_new") none =
      (⟨⟨"r8_new", 4⟩, 4, ⟨3, 1, 2, 0⟩⟩, ⟨some "r8_new", some "4"⟩, .ok ()) :=
  c10_update_credentials_frame ⟨⟨"r8_old", 4⟩, 4, ⟨3, 1, 2, 0⟩⟩
    ⟨some "r8_old", some "4"⟩ "r8_new" (by decide)

/-! ### Helper lemmas about the singleton constructor -/

theorem construct_init_ok (st : ClassState) (env : Env) (inst : PyInstance)
    (a : Option String) (b : Option Int) (t : Int)
    (st' : ClassState) (env' : Env) (w : List Warning) (i : PyInstance)
    (h : construct_init st env inst a b t = (st', env', w, .ok i)) :
    i.initialized = true ∧ st'.inst? = some i ∧
    ∃ c, (get_credentials a b env).2 = .ok c ∧ st'.credentials = some c ∧
      env'.replicate_api_token = some c.api_token := by
  simp only [construct_init] at h
  split at h
  · simp at h
  · rename_i creds heq
    split at h
    · simp only [Prod.mk.injEq, Except.ok.injEq] at h
      obtain ⟨h1, h2, h3, h4⟩ := h
      subst h1
      subst h2
      subst h4
      exact ⟨rfl, rfl, creds, heq, rfl, rfl⟩
    · split at h
      · simp at h
      · simp only [Prod.mk.injEq, Except.ok.injEq] at h
        obtain ⟨h1, h2, h3, h4⟩ := h
        subst h1
        subst h2
        subst h4
        exact ⟨rfl, rfl, creds, heq, rfl, rfl⟩

theorem construct_of_initialized (st : ClassState) (env : Env) (i : PyInstance)
    (a : Option String) (b : Option Int) (t : Int)
    (h1 : st.inst? = some i) (h2 : i.initialized = true) :
    construct st env a b t = (st, env, [], .ok i) := by
  unfold construct
  rw [h1]
  simp [h2]

theorem construct_ok_of_uninit (st : ClassState) (env : Env)
    (a : Option String) (b : Option Int) (t : Int)
    (st' : ClassState) (env' : Env) (w : List Warning) (i : PyInstance)
    (hu : ∀ i0, st.inst? = some i0 → i0.initialized = false)
    (h : construct st env a b t = (st', env', w, .ok i)) :
    i.initialized = true ∧ st'.inst? = some i ∧
    ∃ c, (get_credentials a b env).2 = .ok c ∧ st'.credentials = some c ∧
      env'.replicate_api_token = some c.api_token := by
  unfold construct at h
  cases hi : st.inst? with
  | some i0 =>
      rw [hi] at h
      have h0 := hu i0 hi
      simp only [h0, Bool.false_eq_true, if_false] at h
      exact construct_init_ok st env i0 a b t st' env' w i h
  | none =>
      rw [hi] at h
      exact construct_init_ok _ env _ a b t st' env' w i h

theorem constructSeq_of_initialized (st : ClassState) (env : Env) (i : PyInstance)
    (h1 : st.inst? = some i) (h2 : i.initialized = true)
    (calls : List (Option String × Option Int × Int)) :
    constructSeq st env calls = (st, env, calls.map fun _ => Except.ok i) := by
  induction calls with
  | nil => rfl
  | cons c rest ih =>
      simp only [constructSeq]
      rw [construct_of_initialized st env i c.1 c.2.1 c.2.2 h1 h2]
      simp [ih]

/-- C2: singleton identity.  After a first constructor call from the fresh
class state has succeeded, any sequence of further constructor calls — with
arbitrary arguments and clock readings — leaves the class state and the
environment unchanged and returns, for every call, the very same instance
(same object identity) as the first call; in particular the stored
credentials remain exactly those the first call resolved. -/
theorem c2_singleton_identity (st0 st1 : ClassState) (env0 env1 : Env)
    (a0 : Option String) (b0 : Option Int) (t0 : Int) (w1 : List Warning)
    (i1 : PyInstance)
    (hfresh : st0.inst? = none)
    (hok : construct st0 env0 a0 b0 t0 = (st1, env1, w1, .ok i1)) :
    (∀ calls, constructSeq st1 env1 calls =
      (st1, env1, calls.map fun _ => Except.ok i1)) ∧
    ∃ c, (get_credentials a0 b0 env0).2 = .ok c ∧ st1.credentials = some c := by
  obtain ⟨hinit, hinst, c, hc1, hc2, _⟩ :=
    construct_ok_of_uninit st0 env0 a0 b0 t0 st1 env1 w1 i1
      (fun i0 h0 => by rw [hfresh] at h0; exact Option.noConfusion h0) hok
  exact ⟨constructSeq_of_initialized st1 env1 i1 hinst hinit, c, hc1, hc2⟩

/-- The class state after a successful first constructor call with payload
token `"r8_token"` and payload limit 4 at time 0. -/
def stW2 : ClassState :=
  ⟨1, some ⟨0, true, some ⟨0, 0, 0, 0⟩⟩, some 4, some ⟨"r8_token", 4⟩⟩

/-- The environment after that first call (the resolved token was written
back). -/
def envW2 : Env := ⟨some "r8_token", none⟩

/-- The instance that first call created and every later call returns. -/
def instW2 : PyInstance := ⟨0, true, some ⟨0, 0, 0, 0⟩⟩

/-- Witness for C2: after the concrete first call, two later calls with
different arguments both return the identical instance and change
nothing. -/
theorem c2_singleton_identity_witness :
    constructSeq stW2 envW2 [(some "other", some 99, 7), (none, none, 8)] =
      (stW2, envW2, [Except.ok instW2, Except.ok instW2]) ∧
    stW2.credentials = some ⟨"r8_token", 4⟩ := by
  obtain ⟨hall, c, hc1, hc2⟩ := c2_singleton_identity initialClassState stW2
    ⟨none, none⟩ envW2 (some "r8_token") (some 4) 0 [] instW2 rfl (by decide)
  have he : (get_credentials (some "r8_token") (some 4) (⟨none, none⟩ : Env)).2 =
      Except.ok (⟨"r8_token", 4⟩ : ReplicateCredentials) := by decide
  rw [he] at hc1
  have hc : c = ⟨"r8_token", 4⟩ := (Except.ok.inj hc1).symm
  refine ⟨?_, by rw [hc2, hc]⟩
  simpa using hall [(some "other", some 99, 7), (none, none, 8)]

/-- C9: on every successful initialization of the manager, the resolved
token is written back into the environment under `REPLICATE_API_TOKEN`, so
a subsequent environment read returns exactly the token that resolution
produced (which is also the token stored in the manager's credentials). -/
theorem c9_token_written_back (st st' : ClassState) (env env' : Env)
    (a : Option String) (b : Option Int) (t : Int) (w : List Warning)
    (i : PyInstance)
    (huninit : ∀ i0, st.inst? = some i0 → i0.initialized = false)
    (hok : construct st env a b t = (st', env', w, .ok i)) :
    ∃ c, (get_credentials a b env).2 = .ok c ∧ st'.credentials = some c ∧
      env'.replicate_api_token = some c.api_token := by
  obtain ⟨_, _, c, h1, h2, h3⟩ :=
    construct_ok_of_uninit st env a b t st' env' w i huninit hok
  exact ⟨c, h1, h2, h3⟩

/-- Witness for C9 at the concrete first call with payload token
`"r8_token"`. -/
theorem c9_token_written_back_witness :
    stW2.credentials = some ⟨"r8_token", 4⟩ ∧
    envW2.replicate_api_token = some "r8_token" := by
  obtain ⟨c, h1, h2, h3⟩ := c9_token_written_back initialClassState stW2
    ⟨none, none⟩ envW2 (some "r8_token") (some 4) 0 [] instW2
    (fun i0 h0 => Option.noConfusion h0) (by decide)
  have he : (get_credentials (some "r8_token") (some 4) (⟨none, none⟩ : Env)).2 =
      Except.ok (⟨"r8_token", 4⟩ : ReplicateCredentials) := by decide
  rw [he] at h1
  have hc : c = ⟨"r8_token", 4⟩ := (Except.ok.inj h1).symm
  rw [hc] at h2 h3
  exact ⟨h2, h3⟩

end ReplicateBatch
